import Mathlib

/-!
Verification of the file-to-database synchronizer.

The development shallowly embeds the two Python source files:

* `pandas_fs_event_handler.py` — the `PandasStateWatcher` state holder
  (`add_dataframe`, `remove_dataframe`, `update_dataframes`, `__to_sql`)
  and the `PandasFileSystemEventHander` dispatcher (`dispatch`,
  `on_created`, `on_deleted`, `on_modified`, `on_moved`);
* `file2sql.py` — argument parsing and the watchdog run loop (not needed
  by the properties below).

Python strings are embedded as `String` / `List Char`; `str.split(sep)`
for a one-character separator is embedded by `pySplit`; exceptions are
embedded by an explicit error field that is threaded together with the
(mutable, hence persisting even when an exception propagates) state.
The program runs on a POSIX platform, so `os.path.sep` is `'/'`.
-/

/-- `os.path.sep` on the POSIX platform the program targets. -/
def pathSep : Char := '/'

/-- Embedding of Python `str.split(sep)` for a one-character separator:
splits at every occurrence of `sep`, keeping empty components, and always
returns at least one component. -/
def pySplit (sep : Char) : List Char → List (List Char)
  | [] => [[]]
  | c :: cs =>
    if c = sep then [] :: pySplit sep cs
    else
      match pySplit sep cs with
      | [] => [[c]]
      | r :: rs => (c :: r) :: rs

/-- `src_path.split(os.path.sep)[-1].split('.')[0]` from
`PandasStateWatcher.__to_sql`: the table name derived from a file path. -/
def tableIdentity (p : String) : String :=
  ⟨((pySplit '.' ((pySplit pathSep p.toList).getLastD [])).headD [])⟩

/-- Embedding of Python `str.endswith(pat)` used by the dispatcher's
filter. -/
def pyEndsWith (s pat : String) : Bool :=
  pat.toList.isSuffixOf s.toList

/-- Specification-side description of "the final path segment": the text
after the last occurrence of `sep`, or the whole text when `sep` does not
occur. -/
def lastSegment (sep : Char) : List Char → List Char
  | [] => []
  | c :: cs =>
    if sep ∈ cs then lastSegment sep cs
    else if c = sep then cs else c :: cs

/-- Specification-side table identity: the final path segment truncated
at the first literal `'.'` in that segment. -/
def tableIdentitySpec (p : String) : String :=
  ⟨(lastSegment pathSep p.toList).takeWhile (· ≠ '.')⟩

theorem pySplit_ne_nil (sep : Char) (l : List Char) : pySplit sep l ≠ [] := by
  cases l with
  | nil => simp [pySplit]
  | cons c cs =>
    simp only [pySplit]
    split
    · simp
    · cases h : pySplit sep cs <;> simp

theorem pySplit_of_not_mem (sep : Char) (l : List Char) (h : sep ∉ l) :
    pySplit sep l = [l] := by
  induction l with
  | nil => rfl
  | cons c cs ih =>
    simp only [List.mem_cons, not_or] at h
    have hc : ¬c = sep := fun hh => h.1 hh.symm
    simp only [pySplit]
    rw [if_neg hc, ih h.2]

theorem pySplit_eq_singleton (sep : Char) (l r : List Char)
    (h : pySplit sep l = [r]) : r = l ∧ sep ∉ l := by
  induction l generalizing r with
  | nil =>
    simp only [pySplit, List.cons.injEq] at h
    simp [← h.1]
  | cons c cs ih =>
    by_cases hc : c = sep
    · simp only [pySplit] at h
      rw [if_pos hc] at h
      simp only [List.cons.injEq] at h
      exact absurd h.2 (pySplit_ne_nil sep cs)
    · simp only [pySplit] at h
      rw [if_neg hc] at h
      cases hs : pySplit sep cs with
      | nil => exact absurd hs (pySplit_ne_nil sep cs)
      | cons r' rs' =>
        rw [hs] at h
        simp only [List.cons.injEq] at h
        obtain ⟨hr, hrs⟩ := h
        obtain ⟨hr', hmem⟩ := ih r' (by rw [hs, hrs])
        subst hr'
        constructor
        · exact hr.symm
        · simp only [List.mem_cons, not_or]
          exact ⟨fun hcs => hc hcs.symm, hmem⟩

theorem headD_pySplit (sep : Char) (l : List Char) :
    (pySplit sep l).headD [] = l.takeWhile (· ≠ sep) := by
  induction l with
  | nil => rfl
  | cons c cs ih =>
    by_cases hc : c = sep
    · simp only [pySplit]
      rw [if_pos hc]
      simp [List.takeWhile_cons, hc]
    · simp only [pySplit]
      rw [if_neg hc]
      cases hs : pySplit sep cs with
      | nil => exact absurd hs (pySplit_ne_nil sep cs)
      | cons r rs =>
        rw [hs] at ih
        simp only [List.headD_cons] at ih
        simp only [ne_eq, decide_not] at ih
        simp [List.takeWhile_cons, hc, ← ih]

theorem lastSegment_of_not_mem (sep : Char) (l : List Char) (h : sep ∉ l) :
    lastSegment sep l = l := by
  cases l with
  | nil => rfl
  | cons c cs =>
    simp only [List.mem_cons, not_or] at h
    have hc : ¬c = sep := fun hh => h.1 hh.symm
    simp only [lastSegment]
    rw [if_neg h.2, if_neg hc]

theorem getLastD_of_ne_nil {α : Type} (l : List α) (a b : α) (h : l ≠ []) :
    l.getLastD a = l.getLastD b := by
  cases l with
  | nil => exact absurd rfl h
  | cons x xs => rw [List.getLastD_cons a x xs, List.getLastD_cons b x xs]

theorem getLastD_pySplit (sep : Char) (l : List Char) :
    (pySplit sep l).getLastD [] = lastSegment sep l := by
  induction l with
  | nil => rfl
  | cons c cs ih =>
    by_cases hc : c = sep
    · simp only [pySplit]
      rw [if_pos hc, List.getLastD_cons]
      rw [getLastD_of_ne_nil (pySplit sep cs) [] [] (pySplit_ne_nil sep cs)] at ih
      rw [ih]
      simp only [lastSegment]
      by_cases hm : sep ∈ cs
      · rw [if_pos hm]
      · rw [if_neg hm, if_pos hc, lastSegment_of_not_mem sep cs hm]
    · simp only [pySplit]
      rw [if_neg hc]
      cases hs : pySplit sep cs with
      | nil => exact absurd hs (pySplit_ne_nil sep cs)
      | cons r rs =>
        by_cases hm : sep ∈ cs
        · have hrs : rs ≠ [] := by
            intro hnil
            subst hnil
            exact absurd (pySplit_eq_singleton sep cs r hs).2 (not_not_intro hm)
          rw [hs, List.getLastD_cons] at ih
          rw [List.getLastD_cons]
          rw [getLastD_of_ne_nil rs (c :: r) r hrs, ih]
          simp only [lastSegment]
          rw [if_pos hm]
        · have heq := pySplit_of_not_mem sep cs hm
          rw [heq] at hs
          simp only [List.cons.injEq] at hs
          obtain ⟨hr, hrs⟩ := hs
          subst hr hrs
          simp only [List.getLastD_cons, List.getLastD_nil, lastSegment]
          rw [if_neg hm, if_neg hc]

theorem lastSegment_suffix (sep : Char) (l : List Char) :
    lastSegment sep l <:+ l := by
  induction l with
  | nil => exact List.suffix_refl []
  | cons c cs ih =>
    simp only [lastSegment]
    split
    · exact ih.trans (List.suffix_cons c cs)
    · split
      · exact List.suffix_cons c cs
      · exact List.suffix_refl _

/-- C1: `tableIdentity` returns the final path segment (the text after
the last path separator) truncated at the first literal `'.'` in that
segment; in particular `tableIdentity "dir/a.csv"` and
`tableIdentity "dir/a.b.csv"` are both `"a"`. -/
theorem tableIdentity_spec :
    (∀ p : String, tableIdentity p = tableIdentitySpec p) ∧
    tableIdentity "dir/a.csv" = "a" ∧ tableIdentity "dir/a.b.csv" = "a" := by
  refine ⟨fun p => ?_, by decide, by decide⟩
  unfold tableIdentity tableIdentitySpec
  rw [getLastD_pySplit, headD_pySplit]

/-! ## The state holder `PandasStateWatcher` and the dispatcher -/

/-- A pandas dataframe as parsed from a CSV file: its list of rows. -/
abbrev Df := List (List String)

/-- A Python `dict` keyed by strings (used both for `self.dataframes` and
for the tables of the SQLite engine), embedded as an association list.
Every state the program reaches has unique keys; `alErase` removes every
binding of a key so that the lookup lemmas hold unconditionally. -/
abbrev TableMap := List (String × Df)

def alLookup : TableMap → String → Option Df
  | [], _ => none
  | (k, v) :: rest, key => if k = key then some v else alLookup rest key

def alInsert : TableMap → String → Df → TableMap
  | [], key, val => [(key, val)]
  | (k, v) :: rest, key, val =>
    if k = key then (key, val) :: rest else (k, v) :: alInsert rest key val

def alErase : TableMap → String → TableMap
  | [], _ => []
  | (k, v) :: rest, key =>
    if k = key then alErase rest key else (k, v) :: alErase rest key

/-- The mutable state of a `PandasStateWatcher` together with the tables
held by its SQLite engine. -/
structure WatcherState where
  dataframes : TableMap
  store : TableMap
  deriving DecidableEq, Repr

/-- A call made on the SQLite engine. -/
inductive StoreOp where
  | replace (table : String) (df : Df)
  | selectAll (table : String)
  | drop (table : String)
  deriving DecidableEq, Repr

/-- A Python exception propagating out of the watcher's methods:
`KeyError` from `self.dataframes[src_path]`, or the SQLAlchemy error
raised by `DROP TABLE` on a table the store does not have. -/
inductive StoreErr where
  | keyError (path : String)
  | noSuchTable (table : String)
  deriving DecidableEq, Repr

/-- Result of running one watcher method: the state after the run (Python
state is mutated in place, so it persists even when an exception
propagates), the calls made on the SQLite engine, and the exception
propagating out of the method, if any. -/
structure Outcome where
  state : WatcherState
  ops : List StoreOp
  err : Option StoreErr
  deriving DecidableEq, Repr

/-- Result of `pd.read_csv(src_path)`: a dataframe, or one of the two
exceptions `add_dataframe` catches (`FileNotFoundError`,
`pd.errors.EmptyDataError`). -/
inductive LoadResult where
  | ok (df : Df)
  | notFound
  | empty
  deriving DecidableEq, Repr

/-- `PandasStateWatcher.__to_sql`: derives the table name from the file
name, then either replaces the table with `self.dataframes[src_path]`
(followed by the diagnostic `SELECT * FROM` read), drops the table, or —
for any other operation string — just logs and does nothing. -/
def to_sql (s : WatcherState) (src_path : String) (operation : String) : Outcome :=
  let table_name := tableIdentity src_path
  if operation = "replace" then
    match alLookup s.dataframes src_path with
    | none => { state := s, ops := [], err := some (.keyError src_path) }
    | some df =>
      { state := { s with store := alInsert s.store table_name df },
        ops := [.replace table_name df, .selectAll table_name],
        err := none }
  else if operation = "drop" then
    match alLookup s.store table_name with
    | none =>
      { state := s, ops := [.drop table_name], err := some (.noSuchTable table_name) }
    | some _ =>
      { state := { s with store := alErase s.store table_name },
        ops := [.drop table_name], err := none }
  else
    { state := s, ops := [], err := none }

/-- `PandasStateWatcher.add_dataframe`: loads the CSV (returning silently
on `FileNotFoundError` or `EmptyDataError`), records the dataframe in
`self.dataframes`, then calls `__to_sql` with the `replace` operation. -/
def add_dataframe (load : String → LoadResult) (s : WatcherState)
    (src_path : String) : Outcome :=
  match load src_path with
  | .notFound => { state := s, ops := [], err := none }
  | .empty => { state := s, ops := [], err := none }
  | .ok df =>
    let s1 : WatcherState := { s with dataframes := alInsert s.dataframes src_path df }
    to_sql s1 src_path "replace"

/-- `PandasStateWatcher.remove_dataframe`: deletes the key from
`self.dataframes` (returning silently on `KeyError`), then calls
`__to_sql` with the `drop` operation. -/
def remove_dataframe (s : WatcherState) (src_path : String) : Outcome :=
  match alLookup s.dataframes src_path with
  | none => { state := s, ops := [], err := none }
  | some _ =>
    let s1 : WatcherState := { s with dataframes := alErase s.dataframes src_path }
    to_sql s1 src_path "drop"

/-- `PandasStateWatcher.update_dataframes`: delegates to `add_dataframe`. -/
def update_dataframes (load : String → LoadResult) (s : WatcherState)
    (src_path : String) : Outcome :=
  add_dataframe load s src_path

/-- The kind tag of a watchdog filesystem event. -/
inductive EventKind where
  | created | deleted | modified | moved
  deriving DecidableEq, Repr

/-- A watchdog filesystem event (`dest_path` is meaningful only for
`moved` events). -/
structure FsEvent where
  kind : EventKind
  is_directory : Bool
  src_path : String
  dest_path : String
  deriving DecidableEq, Repr

/-- A call made on the `PandasStateWatcher` (the StateSync collaborator)
by the dispatcher's event handlers. -/
inductive SyncCall where
  | addOrUpdate (path : String)
  | remove (path : String)
  deriving DecidableEq, Repr

/-- Result of `PandasFileSystemEventHander.dispatch` on one event. -/
structure DispatchOut where
  state : WatcherState
  ops : List StoreOp
  calls : List SyncCall
  err : Option StoreErr
  deriving DecidableEq, Repr

/-- `PandasFileSystemEventHander.dispatch`: ignores directory events and
events whose source path does not end in `.csv`; otherwise routes the
event to `on_created` / `on_deleted` / `on_modified` / `on_moved`, which
call the state watcher.  `on_moved` calls `add_dataframe(dest_path)` and
then `remove_dataframe(src_path)`; if the first call raises, the second
is never reached. -/
def dispatch (load : String → LoadResult) (s : WatcherState) (e : FsEvent) :
    DispatchOut :=
  if e.is_directory || !(pyEndsWith e.src_path ".csv") then
    { state := s, ops := [], calls := [], err := none }
  else
    match e.kind with
    | .created =>
      let o := add_dataframe load s e.src_path
      { state := o.state, ops := o.ops, calls := [.addOrUpdate e.src_path], err := o.err }
    | .deleted =>
      let o := remove_dataframe s e.src_path
      { state := o.state, ops := o.ops, calls := [.remove e.src_path], err := o.err }
    | .modified =>
      let o := update_dataframes load s e.src_path
      { state := o.state, ops := o.ops, calls := [.addOrUpdate e.src_path], err := o.err }
    | .moved =>
      let o1 := add_dataframe load s e.dest_path
      match o1.err with
      | some er =>
        { state := o1.state, ops := o1.ops, calls := [.addOrUpdate e.dest_path],
          err := some er }
      | none =>
        let o2 := remove_dataframe o1.state e.src_path
        { state := o2.state, ops := o1.ops ++ o2.ops,
          calls := [.addOrUpdate e.dest_path, .remove e.src_path], err := o2.err }

/-! ## Lemmas on the map operations and `to_sql` -/

theorem alLookup_alInsert_self (m : TableMap) (k : String) (v : Df) :
    alLookup (alInsert m k v) k = some v := by
  induction m with
  | nil => simp [alInsert, alLookup]
  | cons kv rest ih =>
    obtain ⟨k', v'⟩ := kv
    by_cases hk : k' = k
    · simp [alInsert, alLookup, hk]
    · simp [alInsert, alLookup, hk, ih]

theorem alLookup_alInsert_ne (m : TableMap) (k q : String) (v : Df)
    (h : k ≠ q) : alLookup (alInsert m k v) q = alLookup m q := by
  induction m with
  | nil => simp [alInsert, alLookup, h]
  | cons kv rest ih =>
    obtain ⟨k', v'⟩ := kv
    by_cases hk : k' = k
    · subst hk
      simp [alInsert, alLookup, h]
    · simp only [alInsert, if_neg hk, alLookup]
      by_cases hq : k' = q
      · simp [hq]
      · simp [hq, ih]

theorem alLookup_alErase_self (m : TableMap) (k : String) :
    alLookup (alErase m k) k = none := by
  induction m with
  | nil => rfl
  | cons kv rest ih =>
    obtain ⟨k', v'⟩ := kv
    by_cases hk : k' = k
    · simp [alErase, hk, ih]
    · simp [alErase, alLookup, hk, ih]

theorem alLookup_alErase_ne (m : TableMap) (k q : String) (h : k ≠ q) :
    alLookup (alErase m k) q = alLookup m q := by
  induction m with
  | nil => rfl
  | cons kv rest ih =>
    obtain ⟨k', v'⟩ := kv
    by_cases hk : k' = k
    · subst hk
      simp [alErase, alLookup, h, ih]
    · simp [alErase, alLookup, hk, ih]

theorem to_sql_replace (s : WatcherState) (p : String) :
    to_sql s p "replace" =
      match alLookup s.dataframes p with
      | none => { state := s, ops := [], err := some (.keyError p) }
      | some df =>
        { state := { s with store := alInsert s.store (tableIdentity p) df },
          ops := [.replace (tableIdentity p) df, .selectAll (tableIdentity p)],
          err := none } := by
  simp [to_sql]

theorem to_sql_drop (s : WatcherState) (p : String) :
    to_sql s p "drop" =
      match alLookup s.store (tableIdentity p) with
      | none =>
        { state := s, ops := [.drop (tableIdentity p)],
          err := some (.noSuchTable (tableIdentity p)) }
      | some _ =>
        { state := { s with store := alErase s.store (tableIdentity p) },
          ops := [.drop (tableIdentity p)], err := none } := by
  simp [to_sql]

theorem add_dataframe_of_ok (load : String → LoadResult) (s : WatcherState)
    (p : String) (df : Df) (h : load p = .ok df) :
    add_dataframe load s p =
      { state := { dataframes := alInsert s.dataframes p df,
                   store := alInsert s.store (tableIdentity p) df },
        ops := [.replace (tableIdentity p) df, .selectAll (tableIdentity p)],
        err := none } := by
  simp only [add_dataframe, h]
  rw [to_sql_replace]
  simp [alLookup_alInsert_self]

theorem add_dataframe_err (load : String → LoadResult) (s : WatcherState)
    (p : String) : (add_dataframe load s p).err = none := by
  cases h : load p with
  | ok df => rw [add_dataframe_of_ok load s p df h]
  | notFound => simp [add_dataframe, h]
  | empty => simp [add_dataframe, h]

theorem remove_dataframe_of_some (s : WatcherState) (p : String) (df : Df)
    (h : alLookup s.dataframes p = some df) :
    remove_dataframe s p =
      match alLookup s.store (tableIdentity p) with
      | none =>
        { state := { s with dataframes := alErase s.dataframes p },
          ops := [.drop (tableIdentity p)],
          err := some (.noSuchTable (tableIdentity p)) }
      | some _ =>
        { state := { dataframes := alErase s.dataframes p,
                     store := alErase s.store (tableIdentity p) },
          ops := [.drop (tableIdentity p)], err := none } := by
  simp only [remove_dataframe, h]
  rw [to_sql_drop]

theorem remove_dataframe_lookup_other (s : WatcherState) (p q : String)
    (h : p ≠ q) :
    alLookup (remove_dataframe s p).state.dataframes q = alLookup s.dataframes q := by
  cases hm : alLookup s.dataframes p with
  | none => simp [remove_dataframe, hm]
  | some df =>
    rw [remove_dataframe_of_some s p df hm]
    cases hs : alLookup s.store (tableIdentity p) <;>
      simp [alLookup_alErase_ne _ p q h]

/-- C2: when the load reports NotFound or Empty, `add_dataframe` returns
without changing the tracking map and without any store call; a prior
snapshot and its store table are untouched. -/
theorem add_dataframe_invalid_noop (load : String → LoadResult)
    (s : WatcherState) (p : String)
    (h : load p = .notFound ∨ load p = .empty) :
    add_dataframe load s p = { state := s, ops := [], err := none } := by
  rcases h with h | h <;> simp [add_dataframe, h]

/-- Witness for C2: a failed load on the already-tracked path `d/a.csv`
leaves its snapshot and its store table `a` untouched. -/
theorem add_dataframe_invalid_noop_witness :
    add_dataframe (fun _ => .notFound)
        { dataframes := [("d/a.csv", [["1"]])], store := [("a", [["1"]])] }
        "d/a.csv" =
      { state := { dataframes := [("d/a.csv", [["1"]])], store := [("a", [["1"]])] },
        ops := [], err := none } :=
  add_dataframe_invalid_noop _ _ _ (Or.inl rfl)

/-- C3: when the load succeeds, `add_dataframe` records the snapshot in
the tracking map under the path and fully replaces the store table named
`tableIdentity path`: the table afterwards holds exactly the loaded rows. -/
theorem add_dataframe_ok_replaces (load : String → LoadResult)
    (s : WatcherState) (p : String) (df : Df) (h : load p = .ok df) :
    (add_dataframe load s p).err = none ∧
    alLookup (add_dataframe load s p).state.dataframes p = some df ∧
    alLookup (add_dataframe load s p).state.store (tableIdentity p) = some df ∧
    (add_dataframe load s p).ops =
      [.replace (tableIdentity p) df, .selectAll (tableIdentity p)] := by
  rw [add_dataframe_of_ok load s p df h]
  exact ⟨rfl, alLookup_alInsert_self _ _ _, alLookup_alInsert_self _ _ _, rfl⟩

/-- Witness for C3: `orders.csv` is tracked with 3 rows; a modify loads a
single differing row, and the store table `orders` then holds exactly that
row — no merge of old and new. -/
theorem add_dataframe_ok_replaces_witness :
    (add_dataframe (fun _ => .ok [["9", "99"]])
        { dataframes := [("orders.csv", [["1"], ["2"], ["3"]])],
          store := [("orders", [["1"], ["2"], ["3"]])] } "orders.csv").err = none ∧
    alLookup (add_dataframe (fun _ => .ok [["9", "99"]])
        { dataframes := [("orders.csv", [["1"], ["2"], ["3"]])],
          store := [("orders", [["1"], ["2"], ["3"]])] } "orders.csv").state.dataframes
      "orders.csv" = some [["9", "99"]] ∧
    alLookup (add_dataframe (fun _ => .ok [["9", "99"]])
        { dataframes := [("orders.csv", [["1"], ["2"], ["3"]])],
          store := [("orders", [["1"], ["2"], ["3"]])] } "orders.csv").state.store
      (tableIdentity "orders.csv") = some [["9", "99"]] ∧
    (add_dataframe (fun _ => .ok [["9", "99"]])
        { dataframes := [("orders.csv", [["1"], ["2"], ["3"]])],
          store := [("orders", [["1"], ["2"], ["3"]])] } "orders.csv").ops =
      [.replace (tableIdentity "orders.csv") [["9", "99"]],
       .selectAll (tableIdentity "orders.csv")] :=
  add_dataframe_ok_replaces _ _ _ _ rfl

/-- C4: a notification for a directory, or whose source path does not end
in `.csv`, is dropped by the dispatcher: no call reaches the state
watcher and nothing changes. -/
theorem dispatch_filtered (load : String → LoadResult) (s : WatcherState)
    (e : FsEvent)
    (h : e.is_directory = true ∨ pyEndsWith e.src_path ".csv" = false) :
    dispatch load s e = { state := s, ops := [], calls := [], err := none } := by
  rcases h with h | h <;> simp [dispatch, h]

/-- Witness for C4: a created event for `notes.txt` is dropped. -/
theorem dispatch_filtered_witness :
    dispatch (fun _ => .ok [["x"]])
        { dataframes := [], store := [] }
        { kind := .created, is_directory := false,
          src_path := "notes.txt", dest_path := "" } =
      { state := { dataframes := [], store := [] },
        ops := [], calls := [], err := none } :=
  dispatch_filtered _ _ _ (Or.inr (by decide))

/-- C5: an accepted moved notification makes exactly two state-watcher
calls, in the fixed order `add_dataframe(dest_path)` then
`remove_dataframe(src_path)`; the removal runs on the state produced by
the addition. -/
theorem dispatch_moved_order (load : String → LoadResult) (s : WatcherState)
    (e : FsEvent) (hk : e.kind = .moved) (hd : e.is_directory = false)
    (hcsv : pyEndsWith e.src_path ".csv" = true) :
    dispatch load s e =
      { state := (remove_dataframe (add_dataframe load s e.dest_path).state
                    e.src_path).state,
        ops := (add_dataframe load s e.dest_path).ops ++
               (remove_dataframe (add_dataframe load s e.dest_path).state
                  e.src_path).ops,
        calls := [.addOrUpdate e.dest_path, .remove e.src_path],
        err := (remove_dataframe (add_dataframe load s e.dest_path).state
                  e.src_path).err } := by
  simp only [dispatch, hd, hcsv, hk, Bool.not_true, Bool.false_or, Bool.or_self]
  simp [add_dataframe_err]

/-- Witness for C5: moving `a.csv` (tracked, table `a` in the store) to
`b.csv` adds `b.csv` first and then removes `a.csv`. -/
theorem dispatch_moved_order_witness :
    dispatch (fun _ => .ok [["7"]])
        { dataframes := [("a.csv", [["7"]])], store := [("a", [["7"]])] }
        { kind := .moved, is_directory := false,
          src_path := "a.csv", dest_path := "b.csv" } =
      { state := (remove_dataframe
            (add_dataframe (fun _ => .ok [["7"]])
              { dataframes := [("a.csv", [["7"]])], store := [("a", [["7"]])] }
              "b.csv").state "a.csv").state,
        ops := (add_dataframe (fun _ => .ok [["7"]])
                  { dataframes := [("a.csv", [["7"]])], store := [("a", [["7"]])] }
                  "b.csv").ops ++
               (remove_dataframe
                  (add_dataframe (fun _ => .ok [["7"]])
                    { dataframes := [("a.csv", [["7"]])], store := [("a", [["7"]])] }
                    "b.csv").state "a.csv").ops,
        calls := [.addOrUpdate "b.csv", .remove "a.csv"],
        err := (remove_dataframe
                  (add_dataframe (fun _ => .ok [["7"]])
                    { dataframes := [("a.csv", [["7"]])], store := [("a", [["7"]])] }
                    "b.csv").state "a.csv").err } :=
  dispatch_moved_order _ _ _ rfl rfl (by decide)

/-- C6: removing an untracked path is a no-op with no store call; removing
a tracked path deletes the tracking entry first and only then issues the
drop-table call, so the tracking map reflects the removal even when the
drop raises. -/
theorem remove_dataframe_spec (s : WatcherState) (p : String) :
    (alLookup s.dataframes p = none →
      remove_dataframe s p = { state := s, ops := [], err := none }) ∧
    (∀ df, alLookup s.dataframes p = some df →
      (remove_dataframe s p).state.dataframes = alErase s.dataframes p ∧
      alLookup (remove_dataframe s p).state.dataframes p = none ∧
      (remove_dataframe s p).ops = [.drop (tableIdentity p)]) := by
  constructor
  · intro h
    simp [remove_dataframe, h]
  · intro df h
    rw [remove_dataframe_of_some s p df h]
    cases hs : alLookup s.store (tableIdentity p) <;>
      simp [alLookup_alErase_self]

/-- Witness for C6: removing the untracked `x.csv` is a no-op; removing
the tracked `d/b.csv` — whose table `b` is absent from the store, so the
drop raises — still deletes the tracking entry. -/
theorem remove_dataframe_spec_witness :
    remove_dataframe { dataframes := [], store := [] } "x.csv" =
      { state := { dataframes := [], store := [] }, ops := [], err := none } ∧
    ((remove_dataframe { dataframes := [("d/b.csv", [["5"]])], store := [] }
        "d/b.csv").state.dataframes =
      alErase [("d/b.csv", [["5"]])] "d/b.csv" ∧
     alLookup (remove_dataframe { dataframes := [("d/b.csv", [["5"]])], store := [] }
        "d/b.csv").state.dataframes "d/b.csv" = none ∧
     (remove_dataframe { dataframes := [("d/b.csv", [["5"]])], store := [] }
        "d/b.csv").ops = [.drop (tableIdentity "d/b.csv")]) :=
  ⟨(remove_dataframe_spec { dataframes := [], store := [] } "x.csv").1 rfl,
   (remove_dataframe_spec { dataframes := [("d/b.csv", [["5"]])], store := [] }
      "d/b.csv").2 [["5"]] rfl⟩

/-- C9: for an accepted moved notification the destination path is never
checked against the `.csv` filter: `add_dataframe(dest_path)` runs even
when the destination does not end in `.csv`, so the destination becomes
tracked and a replace of the table derived from it is issued. -/
theorem dispatch_moved_dest_unfiltered (load : String → LoadResult)
    (s : WatcherState) (e : FsEvent) (df : Df)
    (hk : e.kind = .moved) (hd : e.is_directory = false)
    (hcsv : pyEndsWith e.src_path ".csv" = true)
    (hload : load e.dest_path = .ok df)
    (hne : e.src_path ≠ e.dest_path) :
    (dispatch load s e).calls = [.addOrUpdate e.dest_path, .remove e.src_path] ∧
    alLookup (dispatch load s e).state.dataframes e.dest_path = some df ∧
    StoreOp.replace (tableIdentity e.dest_path) df ∈ (dispatch load s e).ops := by
  rw [dispatch_moved_order load s e hk hd hcsv]
  refine ⟨rfl, ?_, ?_⟩
  · rw [remove_dataframe_lookup_other _ e.src_path e.dest_path hne,
      add_dataframe_of_ok load s e.dest_path df hload]
    exact alLookup_alInsert_self _ _ _
  · rw [add_dataframe_of_ok load s e.dest_path df hload]
    exact List.mem_append_left _ (List.mem_cons_self _ _)

/-- Witness for C9: moving `a.csv` to `a.txt` tracks `a.txt` and issues a
replace of table `a` even though `a.txt` does not end in `.csv`. -/
theorem dispatch_moved_dest_unfiltered_witness :
    (dispatch (fun p => if p = "a.txt" then .ok [["r"]] else .notFound)
        { dataframes := [], store := [] }
        { kind := .moved, is_directory := false,
          src_path := "a.csv", dest_path := "a.txt" }).calls =
      [.addOrUpdate "a.txt", .remove "a.csv"] ∧
    alLookup (dispatch (fun p => if p = "a.txt" then .ok [["r"]] else .notFound)
        { dataframes := [], store := [] }
        { kind := .moved, is_directory := false,
          src_path := "a.csv", dest_path := "a.txt" }).state.dataframes "a.txt" =
      some [["r"]] ∧
    StoreOp.replace (tableIdentity "a.txt") [["r"]] ∈
      (dispatch (fun p => if p = "a.txt" then .ok [["r"]] else .notFound)
        { dataframes := [], store := [] }
        { kind := .moved, is_directory := false,
          src_path := "a.csv", dest_path := "a.txt" }).ops :=
  dispatch_moved_dest_unfiltered _ _ _ _ rfl rfl (by decide) (by decide) (by decide)

/-- C10: a path whose final segment is exactly `.csv` passes the
dispatcher's suffix filter, its derived table identity is the empty
string, and the store operations for it target the empty table name. -/
theorem dotcsv_accepted_empty_identity (p : String)
    (h : lastSegment pathSep p.toList = ".csv".toList) :
    pyEndsWith p ".csv" = true ∧ tableIdentity p = "" ∧
    ∀ (s : WatcherState) (df : Df), alLookup s.dataframes p = some df →
      (remove_dataframe s p).ops = [StoreOp.drop ""] := by
  have hid : tableIdentity p = "" := by
    have := (tableIdentity_spec.1) p
    rw [this]
    unfold tableIdentitySpec
    rw [h]
    rfl
  refine ⟨?_, hid, ?_⟩
  · have hsuf : (".csv".toList) <:+ p.toList := by
      rw [← h]
      exact lastSegment_suffix pathSep p.toList
    unfold pyEndsWith
    exact List.isSuffixOf_iff_suffix.mpr hsuf
  · intro s df hs
    rw [remove_dataframe_of_some s p df hs]
    cases hst : alLookup s.store (tableIdentity p) <;> simp [hid]

/-- Witness for C10: `dir/.csv` passes the filter, derives the empty
table identity, and its removal drops the empty-named table. -/
theorem dotcsv_accepted_empty_identity_witness :
    pyEndsWith "dir/.csv" ".csv" = true ∧ tableIdentity "dir/.csv" = "" ∧
    (remove_dataframe { dataframes := [("dir/.csv", [["x"]])], store := [("", [["x"]])] }
        "dir/.csv").ops = [StoreOp.drop ""] :=
  ⟨(dotcsv_accepted_empty_identity "dir/.csv" (by decide)).1,
   (dotcsv_accepted_empty_identity "dir/.csv" (by decide)).2.1,
   (dotcsv_accepted_empty_identity "dir/.csv" (by decide)).2.2
     { dataframes := [("dir/.csv", [["x"]])], store := [("", [["x"]])] } [["x"]] rfl⟩

/-! ## Reachable states under sequences of add/remove operations -/

/-- One StateSync operation together with what the loader returned when
the operation ran (for additions). -/
inductive Act where
  | add (path : String) (r : LoadResult)
  | rem (path : String)
  deriving DecidableEq, Repr

/-- The state of a freshly constructed `PandasStateWatcher`: empty
tracking map, empty store. -/
def initState : WatcherState := { dataframes := [], store := [] }

/-- Applies one operation to the watcher state (the loader of an `add`
returns the recorded result for that call). -/
def applyAct (s : WatcherState) : Act → WatcherState
  | .add p r => (add_dataframe (fun _ => r) s p).state
  | .rem p => (remove_dataframe s p).state

/-- The state reached from a fresh watcher by a sequence of operations. -/
def runActs (acts : List Act) : WatcherState :=
  acts.foldl applyAct initState

/-- Whether a path is present in the tracking map. -/
def tracked (s : WatcherState) (p : String) : Bool :=
  (alLookup s.dataframes p).isSome

/-- One step of the history-side tracking predicate of the claim: a
successful load marks the path tracked, a failed load marks it
untracked, a removal marks it untracked. -/
def attemptStep (p : String) (acc : Bool) : Act → Bool
  | .add q r => if q = p then (match r with | .ok _ => true | _ => false) else acc
  | .rem q => if q = p then false else acc

/-- The claim's right-hand side: the last load attempted for the path
produced a usable snapshot and no removal of the path occurred since. -/
def lastAttemptUsableNoRemove (acts : List Act) (p : String) : Bool :=
  acts.foldl (attemptStep p) false

/-- One step of the amended history-side tracking predicate: a successful
load marks the path tracked, a removal marks it untracked, and a failed
load leaves the previous status unchanged. -/
def loadedStep (p : String) (acc : Bool) : Act → Bool
  | .add q r => if q = p then (match r with | .ok _ => true | _ => acc) else acc
  | .rem q => if q = p then false else acc

/-- The amended right-hand side: some load of the path succeeded and no
removal of the path occurred since the last successful load (failed
loads in between do not matter). -/
def loadedAndNotRemoved (acts : List Act) (p : String) : Bool :=
  acts.foldl (loadedStep p) false

theorem tracked_applyAct (s : WatcherState) (p : String) (a : Act) :
    tracked (applyAct s a) p = loadedStep p (tracked s p) a := by
  cases a with
  | add q r =>
    cases r with
    | ok df =>
      simp only [applyAct, add_dataframe_of_ok (fun _ => .ok df) s q df rfl,
        loadedStep]
      by_cases hq : q = p
      · subst hq
        simp [tracked, alLookup_alInsert_self]
      · simp [tracked, alLookup_alInsert_ne s.dataframes q p df hq, hq]
    | notFound =>
      simp only [applyAct, add_dataframe, loadedStep, tracked]
      by_cases hq : q = p <;> simp [hq]
    | empty =>
      simp only [applyAct, add_dataframe, loadedStep, tracked]
      by_cases hq : q = p <;> simp [hq]
  | rem q =>
    simp only [applyAct, loadedStep]
    cases hm : alLookup s.dataframes q with
    | none =>
      simp only [remove_dataframe, hm]
      by_cases hq : q = p
      · subst hq
        simp [tracked, hm]
      · simp [hq]
    | some df =>
      rw [remove_dataframe_of_some s q df hm]
      by_cases hq : q = p
      · subst hq
        cases hs : alLookup s.store (tableIdentity q) <;>
          simp [tracked, alLookup_alErase_self]
      · cases hs : alLookup s.store (tableIdentity q) <;>
          simp [tracked, alLookup_alErase_ne s.dataframes q p hq, hq]

theorem tracked_foldl (acts : List Act) (s : WatcherState) (p : String) :
    tracked (acts.foldl applyAct s) p = acts.foldl (loadedStep p) (tracked s p) := by
  induction acts generalizing s with
  | nil => rfl
  | cons a rest ih =>
    simp only [List.foldl_cons]
    rw [ih (applyAct s a), tracked_applyAct]

/-- C7 (amended form): after any sequence of add/remove operations from a
fresh watcher, a path is in the tracking map exactly when some load of it
succeeded and no removal of it occurred since the last successful load —
a failed load in between leaves the path tracked. -/
theorem tracked_iff_loadedAndNotRemoved (acts : List Act) (p : String) :
    tracked (runActs acts) p = loadedAndNotRemoved acts p := by
  unfold runActs loadedAndNotRemoved
  rw [tracked_foldl acts initState p]
  rfl

/-- Counterexample to C7 as stated: after a successful load of `a.csv`
followed by a failed (NotFound) load, the path is still tracked although
the last load attempted for it did not produce a usable snapshot. -/
theorem tracked_despite_failed_last_attempt :
    tracked (runActs [.add "a.csv" (.ok [["1"]]), .add "a.csv" .notFound])
        "a.csv" = true ∧
    lastAttemptUsableNoRemove
        [.add "a.csv" (.ok [["1"]]), .add "a.csv" .notFound] "a.csv" = false := by
  constructor <;> decide

/-- C8: in a reachable state where table `a` was already dropped out from
under the still-tracked `dir/a.b.csv` (the identity-collision scenario),
the deleted event for `dir/a.b.csv` issues the drop, the store raises,
and the exception propagates out of `dispatch` — no handler in the code
catches or logs it, so nothing in the program keeps the
notification-delivery thread alive for the next event. -/
theorem store_failure_escapes_dispatch :
    (dispatch (fun _ => .notFound)
        (runActs [.add "dir/a.csv" (.ok [["1"]]), .add "dir/a.b.csv" (.ok [["2"]]),
                  .rem "dir/a.csv"])
        { kind := .deleted, is_directory := false,
          src_path := "dir/a.b.csv", dest_path := "" }).err =
      some (.noSuchTable "a") ∧
    (dispatch (fun _ => .notFound)
        (runActs [.add "dir/a.csv" (.ok [["1"]]), .add "dir/a.b.csv" (.ok [["2"]]),
                  .rem "dir/a.csv"])
        { kind := .deleted, is_directory := false,
          src_path := "dir/a.b.csv", dest_path := "" }).ops = [.drop "a"] := by
  constructor <;> decide
